import Mathlib

/-!
Verification development for the small-orm-sqlite repository.

The definitions below are a shallow embedding of the ORM implemented in
`SmallSQLite.ts` (the `SSQL` class variant that takes an `SSQLQuery`
object).  A model instance is represented by its constructor name together
with its own-property list in declaration order; JavaScript runtime values
that can appear in a model field are represented by `Value`.  The SQL text
the ORM builds is reproduced by string concatenation exactly as in the
source.  The SQLite driver is not part of this repository; its behaviour
(statement execution, result rows, `lastInsertRowId`, `PRAGMA table_info`)
is modelled from the spec's store-collaborator contract, with doc comments
marking each modelled piece.
-/

namespace SmallORM

/-- A JavaScript runtime value stored in a model field or a database cell:
booleans, strings, numbers (integers here), and null/undefined. -/
inductive Value where
  | vBool : Bool → Value
  | vStr : String → Value
  | vInt : Int → Value
  | vNull : Value
deriving DecidableEq, Repr

/-- JavaScript string conversion of a boolean (used when a boolean is
concatenated into SQL text). -/
def boolStr (b : Bool) : String := if b then "true" else "false"

/-- JavaScript string conversion of `undefined`-or-string results: string
concatenation with `undefined` yields the text "undefined". -/
def optStr : Option String → String
  | some s => s
  | none => "undefined"

/-- JavaScript `Array.prototype.join(", ")`. -/
def joinComma : List String → String
  | [] => ""
  | [x] => x
  | x :: y :: xs => x ++ ", " ++ joinComma (y :: xs)

/-- JavaScript `String.prototype.endsWith`: does `t` occur as a suffix of
`s`? -/
def endsWithStr (s t : String) : Bool := t.data.isSuffixOf s.data

/-- JavaScript `String.prototype.toLowerCase` for the identifier strings
appearing here: lower-case each character. -/
def toLowerStr (s : String) : String := ⟨s.data.map Char.toLower⟩

/-- The `SSQLDefaults` interface: configurable DEFAULT values per column
type. -/
structure SSQLDefaults where
  bool : Bool
  str : String
  int : Int
deriving DecidableEq, Repr

/-- A model instance (an object of a class extending `SSQLTable`):
`name` is `constructor.name`, `props` is the own-property list in
declaration order as returned by `Object.getOwnPropertyNames`.  For an
instance of a class extending `SSQLTable` the first property is `id`. -/
structure SSQLTable where
  name : String
  props : List (String × Value)
deriving DecidableEq, Repr

/-- `Object.getOwnPropertyNames(table)`. -/
def ownNames (t : SSQLTable) : List String := t.props.map Prod.fst

/-- `Object.getOwnPropertyDescriptor(table, c)?.value`: `none` plays the
role of `undefined`. -/
def getVal (t : SSQLTable) (c : String) : Option Value := t.props.lookup c

/-- Reading `table.id`. -/
def jsIdVal (t : SSQLTable) : Value := (getVal t "id").getD Value.vNull

/-- Property assignment / `Object.defineProperty(t, c, value v)`: an
existing property keeps its position and gets the new value, a new
property is appended (JavaScript insertion order). -/
def setProp (t : SSQLTable) (c : String) (v : Value) : SSQLTable :=
  if (t.props.lookup c).isSome then
    { t with props := t.props.map (fun p => if p.1 = c then (c, v) else p) }
  else
    { t with props := t.props ++ [(c, v)] }

/-- The `SSQLQuery` interface.  The source field `where` is a Lean keyword,
so it is called `whereC` here: an optional (clause, values) pair; `order`
is an optional (by, desc?) pair; `limit` and `offset` are optional
numbers. -/
structure SSQLQuery where
  whereC : Option (String × List Value) := none
  order : Option (String × Option Bool) := none
  limit : Option Int := none
  offset : Option Int := none
deriving DecidableEq, Repr

/-- JavaScript truthiness of an optional number: `undefined` and `0` are
falsy, every other integer is truthy. -/
def truthy (o : Option Int) : Bool :=
  match o with
  | some n => n != 0
  | none => false

/-- `columnInfo`: the column definition text inferred from a field, from
the source: `id` is special-cased by name; otherwise the runtime type of
the field's value picks the column type and the configured default is
concatenated in.  Unknown types give `undefined` (`none`). -/
def columnInfo (d : SSQLDefaults) (t : SSQLTable) (column : String) : Option String :=
  let v := getVal t column
  if column = "id" then
    some "integer PRIMARY KEY AUTOINCREMENT NOT NULL"
  else
    match v with
    | some (Value.vBool _) => some ("boolean NOT NULL DEFAULT " ++ boolStr d.bool)
    | some (Value.vStr _) => some ("varchar DEFAULT \"" ++ d.str ++ "\"")
    | some (Value.vInt _) => some ("integer NOT NULL DEFAULT " ++ toString d.int)
    | _ => none

/-- The `CREATE TABLE IF NOT EXISTS` statement built by `createTable`:
a fold over the own-property names, appending ", " unless the text still
ends with "(". -/
def createTableStatement (d : SSQLDefaults) (t : SSQLTable) : String :=
  let names := ownNames t
  let stmt0 := "CREATE TABLE IF NOT EXISTS \"" ++ (toLowerStr t.name) ++ "\" ("
  let stmt := names.foldl
    (fun s p =>
      let s1 := if endsWithStr s "(" then s else s ++ ", "
      s1 ++ "\"" ++ p ++ "\" " ++ optStr (columnInfo d t p))
    stmt0
  stmt ++ ")"

/-- The `PRAGMA table_info` statement issued by the constructor. -/
def pragmaStatement (t : SSQLTable) : String :=
  "PRAGMA table_info(" ++ (toLowerStr t.name) ++ ");"

/-- One `ALTER TABLE ... ADD COLUMN` statement built by `alterTable`. -/
def alterStatement (d : SSQLDefaults) (t : SSQLTable) (column : String) : String :=
  "ALTER TABLE \"" ++ (toLowerStr t.name) ++ "\" ADD COLUMN " ++ column ++ " "
    ++ optStr (columnInfo d t column)

/-- The `INSERT` statement built by `insertRecord`: the first own property
is spliced off, the remaining names are joined, and one `?` placeholder
per name is emitted. -/
def insertStatement (t : SSQLTable) : String :=
  let names := (ownNames t).drop 1
  "INSERT INTO \"" ++ (toLowerStr t.name) ++ "\" (" ++ joinComma names
    ++ ") VALUES (" ++ joinComma (List.replicate names.length "?") ++ ")"

/-- The values `insertRecord` binds: the descriptor value of each name in
the spliced list, in order. -/
def fieldVals (t : SSQLTable) : List Value :=
  ((ownNames t).drop 1).map (fun p => (getVal t p).getD Value.vNull)

/-- The `UPDATE` statement built by `updateRecord`: a fold over the
spliced name list appending `name = ?` pieces, with ", " unless the text
still ends with "SET ", then a trailing `WHERE id = ?`. -/
def updateStatement (t : SSQLTable) : String :=
  let names := (ownNames t).drop 1
  let stmt0 := "UPDATE \"" ++ (toLowerStr t.name) ++ "\" SET "
  let stmt := names.foldl
    (fun s p =>
      let s1 := if endsWithStr s "SET " then s else s ++ ", "
      s1 ++ p ++ " = ?")
    stmt0
  stmt ++ " WHERE id = ?"

/-- The values `updateRecord` binds: the field values followed by the
instance's `id`. -/
def updateData (t : SSQLTable) : List Value := fieldVals t ++ [jsIdVal t]

/-- The `DELETE` statement built by `delete`; note the table name is the
constructor name without lower-casing. -/
def deleteStatement (t : SSQLTable) : String :=
  "DELETE FROM \"" ++ t.name ++ "\" WHERE id = ?"

/-- The `SELECT` statement built by `find`; note the table name is the
constructor name without lower-casing, and the LIMIT/OFFSET clauses are
emitted only when the corresponding number is truthy. -/
def selectStatement (t : SSQLTable) (q : SSQLQuery) (countOnly : Bool) : String :=
  let select := if countOnly then "COUNT(*) AS total" else "*"
  "SELECT " ++ select ++ " FROM \"" ++ t.name ++ "\""
    ++ (match q.whereC with
        | some w => " WHERE " ++ w.1
        | none => "")
    ++ (match q.order with
        | some o => " ORDER BY " ++ o.1 ++ (if o.2.getD false then " DESC " else " ASC ")
        | none => "")
    ++ (if truthy q.limit then " LIMIT " ++ toString (q.limit.getD 0) else "")
    ++ (if truthy q.offset then " OFFSET " ++ toString (q.offset.getD 0) else "")

/-! ## Store model

The SQLite driver and engine are external collaborators of this
repository.  The definitions in this section are modelled from the spec's
store-collaborator contract (§6) and from the documented semantics of the
SQL the ORM emits: tables hold an ordered column-name list and rows of
values in column order; table-name matching is case-insensitive (SQLite
identifiers; spec §9 notes the casing question); `LIMIT`/`OFFSET` slice
the result, `OFFSET` without `LIMIT` is a SQL syntax error, a negative
`LIMIT` means unlimited and a negative `OFFSET` means zero; errors of a
prepared query surface when its result object is consumed (column
introspection or row retrieval), per the spec's description of the
degrade-to-empty policy.  Raw `WHERE` predicate fragments and `ORDER BY`
are unparsed SQL text the mapper never interprets; executing them is out
of scope of this model, and a query using them on an existing table is
reported as an unmodelled store error (no claim exercises that path). -/

/-- One store table: column names in order, rows of cell values in column
order. -/
structure TableData where
  columns : List String
  rows : List (List Value)
deriving DecidableEq, Repr

/-- The store state: named tables, plus the identifier generated by the
most recent insert (`lastInsertRowId`). -/
structure DBState where
  tables : List (String × TableData)
  lastInsertRowId : Int
deriving DecidableEq, Repr

/-- Case-insensitive table lookup (SQLite identifier matching, modelled
from the spec). -/
def findTable (db : DBState) (n : String) : Option TableData :=
  (db.tables.find? (fun p => toLowerStr p.1 == toLowerStr n)).map Prod.snd

/-- Replace the first table whose name matches case-insensitively. -/
def setTable : List (String × TableData) → String → TableData → List (String × TableData)
  | [], _, _ => []
  | p :: ps, n, td =>
    if toLowerStr p.1 == toLowerStr n then (p.1, td) :: ps else p :: setTable ps n td

/-- Cell of a row under a column name. -/
def rowVal (td : TableData) (r : List Value) (c : String) : Option Value :=
  (td.columns.zip r).lookup c

/-- Row identifier generated for the next insert: one more than the
largest value in the `id` (first) column, as SQLite's AUTOINCREMENT
does. -/
def freshId (td : TableData) : Int :=
  (td.rows.foldl
    (fun m r =>
      max m (match r.head? with
             | some (Value.vInt k) => k
             | _ => 0))
    0) + 1

/-- `CREATE TABLE IF NOT EXISTS`: a no-op when the table exists, otherwise
a new empty table with the given columns. -/
def runCreateTable (db : DBState) (n : String) (cols : List String) : DBState :=
  match findTable db n with
  | some _ => db
  | none => { db with tables := db.tables ++ [(n, ⟨cols, []⟩)] }

/-- `PRAGMA table_info`: the live column-name list, empty for a missing
table. -/
def runPragmaTableInfo (db : DBState) (n : String) : List String :=
  match findTable db n with
  | none => []
  | some td => td.columns

/-- `ALTER TABLE ... ADD COLUMN`: append the column; existing rows gain a
null cell (the ORM only ever alters a table it just created or found, so
the missing-table branch is unreachable from the ORM and modelled as a
no-op). -/
def runAddColumn (db : DBState) (n : String) (c : String) : DBState :=
  match findTable db n with
  | none => db
  | some td =>
    { db with
      tables := setTable db.tables n
        ⟨td.columns ++ [c], td.rows.map (fun r => r ++ [Value.vNull])⟩ }

/-- `INSERT INTO n (cols) VALUES (vals)`: appends a row assembled in table
column order, the `id` column receiving the generated row identifier,
and records that identifier as `lastInsertRowId`. -/
def runInsert (db : DBState) (n : String) (cols : List String) (vals : List Value) :
    Except String DBState :=
  match findTable db n with
  | none => Except.error "no such table"
  | some td =>
    let newId := freshId td
    let row := td.columns.map
      (fun c => if c = "id" then Value.vInt newId
                else ((cols.zip vals).lookup c).getD Value.vNull)
    Except.ok
      { tables := setTable db.tables n { td with rows := td.rows ++ [row] },
        lastInsertRowId := newId }

/-- `UPDATE n SET cols = vals WHERE id = wid`: rewrites the matching rows
cell-wise; rows whose `id` differs are untouched. -/
def runUpdate (db : DBState) (n : String) (cols : List String) (vals : List Value)
    (wid : Value) : Except String DBState :=
  match findTable db n with
  | none => Except.error "no such table"
  | some td =>
    Except.ok
      { db with
        tables := setTable db.tables n
          { td with
            rows := td.rows.map
              (fun r =>
                if rowVal td r "id" = some wid then
                  (td.columns.zip r).map
                    (fun p => ((cols.zip vals).lookup p.1).getD p.2)
                else r) } }

/-- `DELETE FROM n WHERE id = wid`: drops the matching rows. -/
def runDelete (db : DBState) (n : String) (wid : Value) : Except String DBState :=
  match findTable db n with
  | none => Except.error "no such table"
  | some td =>
    Except.ok
      { db with
        tables := setTable db.tables n
          { td with
            rows := td.rows.filter (fun r => !(rowVal td r "id" = some wid : Bool)) } }

/-- SQLite `LIMIT`/`OFFSET` application, gated by the JavaScript
truthiness with which `find` decides whether to emit each clause:
a truthy limit takes (negative limit = unlimited), with a truthy offset
dropping first (negative offset = zero); a truthy offset without a limit
is a SQL syntax error; otherwise all rows. -/
def applyLimitOffset (rows : List (List Value)) (q : SSQLQuery) :
    Except String (List (List Value)) :=
  if truthy q.limit then
    let l := q.limit.getD 0
    let rows1 := if truthy q.offset then rows.drop (q.offset.getD 0).toNat else rows
    Except.ok (if l < 0 then rows1 else rows1.take l.toNat)
  else if truthy q.offset then Except.error "near OFFSET: syntax error"
  else Except.ok rows

/-- Result of preparing and consuming the row-returning `SELECT` that
`find` issues: the result-set column names and the rows.  An error value
represents the latent failure that surfaces when the result object is
consumed (column introspection / row retrieval). -/
def runSelect (db : DBState) (n : String) (q : SSQLQuery) :
    Except String (List String × List (List Value)) :=
  match findTable db n with
  | none => Except.error "no such table"
  | some td =>
    if q.whereC.isSome || q.order.isSome then
      Except.error "unmodelled raw filter or ordering"
    else
      (applyLimitOffset td.rows q).map (fun rs => (td.columns, rs))

/-- Result of consuming the `SELECT COUNT(*) AS total` that `find` issues
in count-only mode: the scalar read by `rows.next().value[0]`. -/
def runSelectCount (db : DBState) (n : String) (q : SSQLQuery) : Except String Int :=
  match findTable db n with
  | none => Except.error "no such table"
  | some td =>
    if q.whereC.isSome || q.order.isSome then
      Except.error "unmodelled raw filter or ordering"
    else
      match applyLimitOffset [[Value.vInt (td.rows.length : Int)]] q with
      | Except.error e => Except.error e
      | Except.ok ((Value.vInt k :: _) :: _) => Except.ok k
      | Except.ok _ => Except.error "nothing to read"

/-! ## The ORM operations

Each operation below is the translation of the corresponding `SSQL`
method: the `new table()` constructor argument becomes the default
instance `proto`, in-place mutation of the instance becomes returning the
updated instance, and a thrown driver error becomes an `Except.error`. -/

/-- Result record of `find`: `{ count, objects }`. -/
structure FindResult where
  count : Int
  objects : List SSQLTable
deriving DecidableEq, Repr

/-- Row hydration loop of `find`: for each index `i`,
`Object.defineProperty(nobj, names[i], { value: row[i] })`, where a row
exhausted early yields `undefined` (`vNull`). -/
def hydrate (proto : SSQLTable) : List String → List Value → SSQLTable
  | [], _ => proto
  | c :: cs, [] => hydrate (setProp proto c Value.vNull) cs []
  | c :: cs, v :: vs => hydrate (setProp proto c v) cs vs

/-- `find`: issues the `SELECT` built by `selectStatement` (the statement
names the table by the raw constructor name).  In the row-returning
branch the failure of `rows.columns()` is caught and turned into the
empty result; in the count-only branch `rows.next().value[0]` is read
with no catch, so a latent failure propagates. -/
def find (db : DBState) (proto : SSQLTable) (q : SSQLQuery) (countOnly : Bool) :
    Except String FindResult :=
  if !countOnly then
    match runSelect db proto.name q with
    | Except.error _ => Except.ok ⟨0, []⟩
    | Except.ok (names, rows) =>
      let list := rows.map (fun row => hydrate proto names row)
      Except.ok ⟨(list.length : Int), list⟩
  else
    match runSelectCount db proto.name q with
    | Except.error e => Except.error e
    | Except.ok k => Except.ok ⟨k, []⟩

/-- `findOne`: `find` with the filter `id = ?`, returning `objects[0]`
(`none` plays `undefined`). -/
def findOne (db : DBState) (proto : SSQLTable) (i : Int) :
    Except String (Option SSQLTable) :=
  (find db proto { whereC := some ("id = ?", [Value.vInt i]) } false).map
    (fun r => r.objects.head?)

/-- `findMany`: `find`, returning only the instance list. -/
def findMany (db : DBState) (proto : SSQLTable) (q : SSQLQuery) :
    Except String (List SSQLTable) :=
  (find db proto q false).map (fun r => r.objects)

/-- `count`: count-only `find` with the empty query. -/
def count (db : DBState) (proto : SSQLTable) : Except String Int :=
  (find db proto {} true).map (fun r => r.count)

/-- `countBy`: count-only `find` with the supplied query. -/
def countBy (db : DBState) (proto : SSQLTable) (q : SSQLQuery) : Except String Int :=
  (find db proto q true).map (fun r => r.count)

/-- `insertRecord`: executes the `INSERT` built by `insertStatement`
(splicing off the first own property, binding `fieldVals`), then sets
`table.id` to `this.db.lastInsertRowId`. -/
def insertRecord (db : DBState) (t : SSQLTable) : Except String (DBState × SSQLTable) :=
  match runInsert db (toLowerStr t.name) ((ownNames t).drop 1) (fieldVals t) with
  | Except.error e => Except.error e
  | Except.ok db2 => Except.ok (db2, setProp t "id" (Value.vInt db2.lastInsertRowId))

/-- `updateRecord`: executes the `UPDATE` built by `updateStatement`,
binding `fieldVals` then the instance's `id`; the instance is not
written. -/
def updateRecord (db : DBState) (t : SSQLTable) : Except String (DBState × SSQLTable) :=
  match runUpdate db (toLowerStr t.name) ((ownNames t).drop 1) (fieldVals t) (jsIdVal t) with
  | Except.error e => Except.error e
  | Except.ok db2 => Except.ok (db2, t)

/-- `delete`: executes the `DELETE` built by `deleteStatement` (raw
constructor name), binding the instance's `id`; the instance is not
written. -/
def delete (db : DBState) (t : SSQLTable) : Except String (DBState × SSQLTable) :=
  match runDelete db t.name (jsIdVal t) with
  | Except.error e => Except.error e
  | Except.ok db2 => Except.ok (db2, t)

/-- `save`: `INSERT` when `obj.id === -1`, else `UPDATE`. -/
def save (db : DBState) (t : SSQLTable) : Except String (DBState × SSQLTable) :=
  if jsIdVal t = Value.vInt (-1) then insertRecord db t else updateRecord db t

/-- `alterTable`: issues one `ALTER TABLE ... ADD COLUMN` per missing
column; the issued statements are returned alongside the store state. -/
def alterTable (d : SSQLDefaults) (db : DBState) (t : SSQLTable) (columns : List String) :
    DBState × List String :=
  columns.foldl
    (fun acc column =>
      (runAddColumn acc.1 (toLowerStr t.name) column, acc.2 ++ [alterStatement d t column]))
    (db, [])

/-- The per-entity body of the `SSQL` constructor (ensure-table):
`createTable`, then `PRAGMA table_info`, then `alterTable` on the
own-property names missing from the live column list.  Returns the store
state and the list of `ALTER TABLE` statements issued. -/
def syncEntity (d : SSQLDefaults) (db : DBState) (t : SSQLTable) : DBState × List String :=
  let db1 := runCreateTable db (toLowerStr t.name) (ownNames t)
  let names := ownNames t
  let data := runPragmaTableInfo db1 (toLowerStr t.name)
  let n := names.filter (fun item => !(data.contains item))
  if n.length > 0 then alterTable d db1 t n else (db1, [])

/-! ## Auxiliary definitions used by the statements below -/

/-- JavaScript `typeof` of a possibly-absent value (`none` is
`undefined`, `vNull` is a JavaScript `null`, whose `typeof` is
"object"). -/
def jsTypeOf : Option Value → String
  | some (Value.vBool _) => "boolean"
  | some (Value.vStr _) => "string"
  | some (Value.vInt _) => "number"
  | some Value.vNull => "object"
  | none => "undefined"

/-- Number of rows of a `findMany` outcome, `-1` for a propagated
error. -/
def resultLen : Except String (List SSQLTable) → Int
  | Except.ok l => (l.length : Int)
  | Except.error _ => -1

/-- The tail pieces of the `SET` list of an `UPDATE` statement: each
subsequent assignment with its leading comma. -/
def restPieces : List String → String
  | [] => ""
  | p :: ps => ", " ++ p ++ " = ?" ++ restPieces ps

/-- A sample model instance: `class User extends SSQLTable` with fields
`userName = ""`, `active = false`, `age = 0`. -/
def sampleUser : SSQLTable :=
  { name := "User",
    props := [("id", Value.vInt (-1)), ("userName", Value.vStr ""),
              ("active", Value.vBool false), ("age", Value.vInt 0)] }

/-- A sample model instance: `class Log extends SSQLTable` with field
`status = 0`. -/
def sampleLog : SSQLTable :=
  { name := "Log",
    props := [("id", Value.vInt (-1)), ("status", Value.vInt 0)] }

/-- The built-in column defaults. -/
def sampleDefaults : SSQLDefaults := { bool := false, str := "", int := -1 }

/-- An empty store. -/
def emptyDB : DBState := { tables := [], lastInsertRowId := 0 }

/-- A store holding the synchronized `log` table with one saved row. -/
def logDB : DBState :=
  { tables := [("log", ⟨["id", "status"], [[Value.vInt 1, Value.vInt 1]]⟩)],
    lastInsertRowId := 1 }

/-- A store holding the synchronized `user` table with no rows yet. -/
def userFreshDB : DBState :=
  { tables := [("user", ⟨["id", "userName", "active", "age"], []⟩)],
    lastInsertRowId := 0 }

/-- A store holding the synchronized `user` table with two saved rows. -/
def userDB : DBState :=
  { tables := [("user",
      ⟨["id", "userName", "active", "age"],
       [[Value.vInt 1, Value.vStr "a", Value.vBool true, Value.vInt 10],
        [Value.vInt 2, Value.vStr "b", Value.vBool false, Value.vInt 20]]⟩)],
    lastInsertRowId := 2 }

/-! ## Helper lemmas -/

theorem string_eq_of_data {a b : String} (h : a.data = b.data) : a = b := by
  cases a
  cases b
  exact congrArg String.mk (by simpa using h)

theorem append_inj_mid (p s a b : String) (h : p ++ a ++ s = p ++ b ++ s) : a = b := by
  apply string_eq_of_data
  have hd := congrArg String.data h
  simp only [String.data_append] at hd
  rw [List.append_assoc, List.append_assoc] at hd
  have h1 := List.append_cancel_left hd
  exact List.append_cancel_right h1

theorem endsWithStr_append_of_suffix (s lit t : String) (h : t.data <:+ lit.data) :
    endsWithStr (s ++ lit) t = true := by
  unfold endsWithStr
  rw [List.isSuffixOf_iff_suffix, String.data_append]
  exact h.trans (List.suffix_append s.data lit.data)

theorem endsWithStr_false_of_last {s t : String} (c c2 : Char)
    (h1 : s.data.getLast? = some c) (h2 : t.data.getLast? = some c2) (h3 : c ≠ c2) :
    endsWithStr s t = false := by
  unfold endsWithStr
  rw [Bool.eq_false_iff]
  intro hsuf
  rw [List.isSuffixOf_iff_suffix] at hsuf
  obtain ⟨u, hu⟩ := hsuf
  have ht : t.data ≠ [] := by
    intro hnil
    rw [hnil] at h2
    simp at h2
  have := congrArg List.getLast? hu
  rw [List.getLast?_append, h1] at this
  rw [List.getLast?_eq_getLast _ ht] at this
  rw [List.getLast?_eq_getLast _ ht] at h2
  simp only [Option.or_some] at this
  rw [h2] at this
  exact h3 (Option.some.inj this).symm

theorem getLast?_data_append_of_last {s lit : String} {c : Char}
    (h : lit.data.getLast? = some c) : (s ++ lit).data.getLast? = some c := by
  rw [String.data_append, List.getLast?_append, h]
  rfl

theorem foldl_append_exists {α : Type} (step : String → α → String)
    (h : ∀ s a, ∃ u, step s a = s ++ u) :
    ∀ (l : List α) (s : String), ∃ r, l.foldl step s = s ++ r := by
  intro l
  induction l with
  | nil =>
    intro s
    exact ⟨"", by simp [String.append_empty]⟩
  | cons a as ih =>
    intro s
    obtain ⟨u, hu⟩ := h s a
    obtain ⟨r, hr⟩ := ih (step s a)
    exact ⟨u ++ r, by rw [List.foldl_cons, hr, hu, String.append_assoc]⟩

theorem lookup_append (l l2 : List (String × Value)) (c : String) :
    (l ++ l2).lookup c = (l.lookup c).or (l2.lookup c) := by
  induction l with
  | nil => simp
  | cons p ps ih =>
    cases p with
    | mk k v =>
      by_cases hk : c = k
      · subst hk
        simp [List.lookup_cons]
      · have hb : (c == k) = false := by simp [hk]
        simp [List.lookup_cons, hb, ih]

theorem lookup_map_replace (l : List (String × Value)) (c : String) (v : Value)
    (h : (l.lookup c).isSome = true) :
    (l.map (fun p => if p.1 = c then (c, v) else p)).lookup c = some v := by
  induction l with
  | nil => simp at h
  | cons p ps ih =>
    cases p with
    | mk k w =>
      by_cases hk : k = c
      · subst hk
        simp [List.lookup_cons]
      · have hck : c ≠ k := fun hcc => hk hcc.symm
        have hb : (c == k) = false := by simp [hck]
        simp only [List.lookup_cons, hb] at h
        simp [List.map_cons, hk, List.lookup_cons, hb, ih h]

theorem lookup_map_replace_ne (l : List (String × Value)) (c : String) (v : Value)
    (c2 : String) (h : c2 ≠ c) :
    (l.map (fun p => if p.1 = c then (c, v) else p)).lookup c2 = l.lookup c2 := by
  induction l with
  | nil => simp
  | cons p ps ih =>
    cases p with
    | mk k w =>
      by_cases hk : k = c
      · subst hk
        have hb : (c2 == k) = false := by simp [h]
        simp [List.map_cons, List.lookup_cons, hb, ih]
      · by_cases h2 : c2 = k
        · subst h2
          simp [List.map_cons, hk, List.lookup_cons]
        · have hb : (c2 == k) = false := by simp [h2]
          simp [List.map_cons, hk, List.lookup_cons, hb, ih]

theorem getVal_setProp_same (t : SSQLTable) (c : String) (v : Value) :
    getVal (setProp t c v) c = some v := by
  unfold setProp getVal
  by_cases h : (t.props.lookup c).isSome = true
  · rw [if_pos h]
    exact lookup_map_replace t.props c v h
  · rw [if_neg h]
    have hn : t.props.lookup c = none := by
      cases hl : t.props.lookup c
      · rfl
      · rw [hl] at h
        simp at h
    simp [lookup_append, hn, List.lookup_cons]

theorem getVal_setProp_ne (t : SSQLTable) (c : String) (v : Value) (c2 : String)
    (h : c2 ≠ c) : getVal (setProp t c v) c2 = getVal t c2 := by
  unfold setProp getVal
  by_cases hs : (t.props.lookup c).isSome = true
  · rw [if_pos hs]
    exact lookup_map_replace_ne t.props c v c2 h
  · rw [if_neg hs]
    show List.lookup c2 (t.props ++ [(c, v)]) = List.lookup c2 t.props
    rw [lookup_append]
    have hb : (c2 == c) = false := by simp [h]
    simp [List.lookup_cons, hb]

theorem getVal_hydrate_not_mem :
    ∀ (names : List String) (row : List Value) (proto : SSQLTable) (c : String),
      c ∉ names → getVal (hydrate proto names row) c = getVal proto c := by
  intro names
  induction names with
  | nil =>
    intro row proto c _
    cases row <;> rfl
  | cons n ns ih =>
    intro row proto c hc
    have hcn : c ≠ n := fun h => hc (by simp [h])
    have hcns : c ∉ ns := fun h => hc (List.mem_cons_of_mem _ h)
    cases row with
    | nil =>
      show getVal (hydrate (setProp proto n Value.vNull) ns []) c = getVal proto c
      rw [ih [] _ c hcns, getVal_setProp_ne _ _ _ _ hcn]
    | cons v vs =>
      show getVal (hydrate (setProp proto n v) ns vs) c = getVal proto c
      rw [ih vs _ c hcns, getVal_setProp_ne _ _ _ _ hcn]

theorem getVal_hydrate_nodup :
    ∀ (names : List String) (row : List Value) (proto : SSQLTable) (i : ℕ)
      (_ : names.Nodup) (hi : i < names.length) (hr : i < row.length),
      getVal (hydrate proto names row) (names.get ⟨i, hi⟩) = some (row.get ⟨i, hr⟩) := by
  intro names
  induction names with
  | nil =>
    intro row proto i _ hi _
    simp at hi
  | cons n ns ih =>
    intro row proto i hnd hi hr
    cases row with
    | nil => simp at hr
    | cons v vs =>
      cases i with
      | zero =>
        show getVal (hydrate (setProp proto n v) ns vs) n = some v
        have hn : n ∉ ns := (List.nodup_cons.mp hnd).1
        rw [getVal_hydrate_not_mem ns vs _ n hn]
        exact getVal_setProp_same proto n v
      | succ j =>
        have hj : j < ns.length := Nat.lt_of_succ_lt_succ hi
        have hjr : j < vs.length := Nat.lt_of_succ_lt_succ hr
        exact ih vs (setProp proto n v) j (List.nodup_cons.mp hnd).2 hj hjr

theorem lookup_pos (l : List (String × Value)) (h : (l.map Prod.fst).Nodup) :
    (l.map Prod.fst).map (fun c => (List.lookup c l).getD Value.vNull) = l.map Prod.snd := by
  induction l with
  | nil => rfl
  | cons p ps ih =>
    cases p with
    | mk k v =>
      simp only [List.map_cons] at h ⊢
      have hk : k ∉ ps.map Prod.fst := (List.nodup_cons.mp h).1
      have hhead : (List.lookup k ((k, v) :: ps)).getD Value.vNull = v := by
        simp [List.lookup_cons]
      have htail :
          (ps.map Prod.fst).map (fun c => (List.lookup c ((k, v) :: ps)).getD Value.vNull)
            = (ps.map Prod.fst).map (fun c => (List.lookup c ps).getD Value.vNull) := by
        apply List.map_congr_left
        intro c hc
        have hck : c ≠ k := fun hh => hk (hh ▸ hc)
        have hb : (c == k) = false := by simp [hck]
        simp [List.lookup_cons, hb]
      rw [hhead, htail, ih (List.nodup_cons.mp h).2]

theorem find?_append_none {α : Type} (p : α → Bool) (l1 l2 : List α)
    (h : l1.find? p = none) : (l1 ++ l2).find? p = l2.find? p := by
  induction l1 with
  | nil => rfl
  | cons a as ih =>
    rw [List.find?_cons] at h
    cases hp : p a with
    | true => rw [hp] at h; exact absurd h (by simp)
    | false =>
      rw [hp] at h
      rw [List.cons_append, List.find?_cons, hp]
      exact ih h

theorem find?_setTable (l : List (String × TableData)) (n : String) (td : TableData) :
    (setTable l n td).find? (fun p => toLowerStr p.1 == toLowerStr n)
      = (l.find? (fun p => toLowerStr p.1 == toLowerStr n)).map (fun p => (p.1, td)) := by
  induction l with
  | nil => rfl
  | cons a as ih =>
    unfold setTable
    by_cases h : toLowerStr a.1 == toLowerStr n
    · rw [if_pos h]
      rw [List.find?_cons, List.find?_cons]
      simp only [h]
      rfl
    · rw [if_neg h]
      rw [List.find?_cons, List.find?_cons]
      have hb : (toLowerStr a.1 == toLowerStr n) = false := by
        cases hx : (toLowerStr a.1 == toLowerStr n)
        · rfl
        · exact absurd hx h
      simp only [hb]
      exact ih

theorem setTable_self (l : List (String × TableData)) (n : String) (td : TableData)
    (h : (l.find? (fun p => toLowerStr p.1 == toLowerStr n)).map Prod.snd = some td) :
    setTable l n td = l := by
  induction l with
  | nil => simp at h
  | cons a as ih =>
    unfold setTable
    by_cases hp : toLowerStr a.1 == toLowerStr n
    · rw [if_pos hp]
      rw [List.find?_cons] at h
      simp only [hp] at h
      have : a.2 = td := by
        simpa using h
      rw [← this]
    · rw [if_neg hp]
      rw [List.find?_cons] at h
      have hb : (toLowerStr a.1 == toLowerStr n) = false := by
        cases hx : (toLowerStr a.1 == toLowerStr n)
        · rfl
        · exact absurd hx hp
      simp only [hb] at h
      rw [ih h]

theorem findTable_setTable (db : DBState) (n : String) (td td0 : TableData)
    (h : findTable db n = some td0) :
    findTable { db with tables := setTable db.tables n td } n = some td := by
  unfold findTable at h ⊢
  rw [find?_setTable]
  cases hf : db.tables.find? (fun p => toLowerStr p.1 == toLowerStr n) with
  | none => rw [hf] at h; simp at h
  | some q => rfl

theorem findTable_append_self (db : DBState) (n : String) (td : TableData)
    (h : db.tables.find? (fun p => toLowerStr p.1 == toLowerStr n) = none) :
    findTable { db with tables := db.tables ++ [(n, td)] } n = some td := by
  unfold findTable
  show ((db.tables ++ [(n, td)]).find? (fun p => toLowerStr p.1 == toLowerStr n)).map Prod.snd
    = some td
  rw [find?_append_none _ _ _ h, List.find?_cons]
  simp

theorem findTable_runCreateTable (db : DBState) (n : String) (cols : List String) :
    findTable (runCreateTable db n cols) n = some ((findTable db n).getD ⟨cols, []⟩) := by
  unfold runCreateTable
  cases h : findTable db n with
  | some td => simpa using h
  | none =>
    have hf : db.tables.find? (fun p => toLowerStr p.1 == toLowerStr n) = none := by
      unfold findTable at h
      cases hx : db.tables.find? (fun p => toLowerStr p.1 == toLowerStr n)
      · rfl
      · rw [hx] at h; simp at h
    simpa using findTable_append_self db n ⟨cols, []⟩ hf

theorem findTable_runAddColumn (db : DBState) (n : String) (c : String) :
    findTable (runAddColumn db n c) n
      = (findTable db n).map
          (fun td => ⟨td.columns ++ [c], td.rows.map (fun r => r ++ [Value.vNull])⟩) := by
  unfold runAddColumn
  cases h : findTable db n with
  | none => simpa using h
  | some td => exact findTable_setTable db n _ td h

theorem alterTable_fold_aux (d : SSQLDefaults) (t : SSQLTable) :
    ∀ (cs : List String) (db : DBState) (st : List String),
      (cs.foldl
          (fun acc column =>
            (runAddColumn acc.1 (toLowerStr t.name) column, acc.2 ++ [alterStatement d t column]))
          (db, st)).1
        = cs.foldl (fun db2 column => runAddColumn db2 (toLowerStr t.name) column) db := by
  intro cs
  induction cs with
  | nil => intro db st; rfl
  | cons c cs2 ih => intro db st; exact ih _ _

theorem alterTable_fst (d : SSQLDefaults) (t : SSQLTable) (cs : List String)
    (db : DBState) :
    (alterTable d db t cs).1
      = cs.foldl (fun db2 column => runAddColumn db2 (toLowerStr t.name) column) db :=
  alterTable_fold_aux d t cs db []

theorem findTable_addColumn_fold (nm : String) :
    ∀ (cs : List String) (db : DBState) (td : TableData),
      findTable db nm = some td →
      ∃ rows2,
        findTable (cs.foldl (fun db2 column => runAddColumn db2 nm column) db) nm
          = some ⟨td.columns ++ cs, rows2⟩ := by
  intro cs
  induction cs with
  | nil =>
    intro db td h
    exact ⟨td.rows, by simpa using h⟩
  | cons c cs2 ih =>
    intro db td h
    have h1 : findTable (runAddColumn db nm c) nm
        = some ⟨td.columns ++ [c], td.rows.map (fun r => r ++ [Value.vNull])⟩ := by
      rw [findTable_runAddColumn, h]
      rfl
    obtain ⟨rows2, h2⟩ := ih (runAddColumn db nm c) _ h1
    refine ⟨rows2, ?_⟩
    rw [List.foldl_cons, h2]
    simp

theorem contains_mem {l : List String} {x : String} (h : l.contains x = true) : x ∈ l := by
  have he : l.elem x = true := h
  exact List.elem_iff.mp he

theorem mem_contains {l : List String} {x : String} (h : x ∈ l) : l.contains x = true := by
  have he : l.elem x = true := List.elem_iff.mpr h
  exact he

theorem syncEntity_spec (d : SSQLDefaults) (db : DBState) (t : SSQLTable) :
    ∃ td, findTable ((syncEntity d db t).1) (toLowerStr t.name) = some td
      ∧ ∀ x ∈ ownNames t, x ∈ td.columns := by
  simp only [syncEntity]
  set db1 := runCreateTable db (toLowerStr t.name) (ownNames t) with hdb1
  set td0 := (findTable db (toLowerStr t.name)).getD ⟨ownNames t, []⟩ with htd0
  have hcreate : findTable db1 (toLowerStr t.name) = some td0 :=
    findTable_runCreateTable db (toLowerStr t.name) (ownNames t)
  have hdata : runPragmaTableInfo db1 (toLowerStr t.name) = td0.columns := by
    unfold runPragmaTableInfo
    rw [hcreate]
  rw [hdata]
  set miss := (ownNames t).filter (fun item => !(td0.columns.contains item)) with hmiss
  by_cases hlen : miss.length > 0
  · rw [if_pos hlen]
    rw [alterTable_fst]
    obtain ⟨rows2, h2⟩ := findTable_addColumn_fold (toLowerStr t.name) miss db1 td0 hcreate
    refine ⟨⟨td0.columns ++ miss, rows2⟩, h2, ?_⟩
    intro x hx
    by_cases hc : td0.columns.contains x = true
    · exact List.mem_append_left _ (contains_mem hc)
    · apply List.mem_append_right
      rw [hmiss]
      rw [List.mem_filter]
      refine ⟨hx, ?_⟩
      cases hcc : td0.columns.contains x
      · rfl
      · exact absurd hcc hc
  · rw [if_neg hlen]
    refine ⟨td0, hcreate, ?_⟩
    intro x hx
    have hm : miss = [] := by
      cases hmm : miss
      · rfl
      · rw [hmm] at hlen; simp at hlen
    have hfx := List.filter_eq_nil_iff.mp (hmiss ▸ hm) x hx
    have hcx : td0.columns.contains x = true := by
      cases hcc : td0.columns.contains x
      · rw [hcc] at hfx; simp at hfx
      · rfl
    exact contains_mem hcx

theorem endsWith_SET_false_of_q {s : String} (h : s.data.getLast? = some '?') :
    endsWithStr s "SET " = false :=
  endsWithStr_false_of_last '?' ' ' h (by decide) (by decide)

theorem updFoldAux :
    ∀ (fs : List String) (s : String), s.data.getLast? = some '?' →
      fs.foldl (fun s2 p => (if endsWithStr s2 "SET " then s2 else s2 ++ ", ") ++ p ++ " = ?") s
        = s ++ restPieces fs := by
  intro fs
  induction fs with
  | nil =>
    intro s _
    show s = s ++ restPieces []
    rw [restPieces, String.append_empty]
  | cons p ps ih =>
    intro s h
    rw [List.foldl_cons]
    rw [if_neg (by simp [endsWith_SET_false_of_q h])]
    have h2 : (s ++ ", " ++ p ++ " = ?").data.getLast? = some '?' :=
      getLast?_data_append_of_last (by decide)
    rw [ih _ h2, restPieces]
    simp [String.append_assoc]

theorem joinComma_pieces (f : String) :
    ∀ fs : List String,
      joinComma ((f :: fs).map (fun p => p ++ " = ?")) = f ++ " = ?" ++ restPieces fs := by
  intro fs
  induction fs generalizing f with
  | nil =>
    rw [List.map_cons, List.map_nil, joinComma, restPieces, String.append_empty]
  | cons g gs ih =>
    have ihg := ih g
    simp only [List.map_cons] at ihg ⊢
    simp only [joinComma]
    rw [ihg, restPieces]
    simp only [String.append_assoc]

theorem updateStatement_eq (t : SSQLTable) :
    updateStatement t
      = "UPDATE \"" ++ (toLowerStr t.name) ++ "\" SET "
          ++ joinComma (((ownNames t).drop 1).map (fun p => p ++ " = ?"))
          ++ " WHERE id = ?" := by
  simp only [updateStatement]
  cases hfs : (ownNames t).drop 1 with
  | nil =>
    rw [List.foldl_nil, List.map_nil, joinComma, String.append_empty]
  | cons f fs =>
    rw [List.foldl_cons]
    have hset : endsWithStr ("UPDATE \"" ++ (toLowerStr t.name) ++ "\" SET ") "SET " = true :=
      endsWithStr_append_of_suffix _ "\" SET " _ (by decide)
    rw [if_pos hset]
    have hq : ("UPDATE \"" ++ (toLowerStr t.name) ++ "\" SET " ++ f ++ " = ?").data.getLast?
        = some '?' := getLast?_data_append_of_last (by decide)
    rw [updFoldAux fs _ hq, joinComma_pieces]
    simp [String.append_assoc]

theorem createTableStatement_head (d : SSQLDefaults) (t : SSQLTable) :
    ∃ r, createTableStatement d t
      = "CREATE TABLE IF NOT EXISTS \"" ++ (toLowerStr t.name) ++ "\" (" ++ r := by
  simp only [createTableStatement]
  obtain ⟨r, hr⟩ :=
    foldl_append_exists
      (fun s p =>
        (if endsWithStr s "(" then s else s ++ ", ") ++ "\"" ++ p ++ "\" "
          ++ optStr (columnInfo d t p))
      (fun s a => by
        refine ⟨(if endsWithStr s "(" then "" else ", ") ++ "\"" ++ a ++ "\" "
          ++ optStr (columnInfo d t a), ?_⟩
        by_cases h : endsWithStr s "(" = true
        · simp [h, String.append_assoc, String.append_empty]
        · simp [h, String.append_assoc])
      (ownNames t) ("CREATE TABLE IF NOT EXISTS \"" ++ (toLowerStr t.name) ++ "\" (")
  rw [hr]
  exact ⟨r ++ ")", by simp [String.append_assoc]⟩

theorem find_noFilter (db : DBState) (proto : SSQLTable) (td : TableData) (L O : ℕ)
    (hL : 1 ≤ L) (htab : findTable db proto.name = some td) :
    find db proto { limit := some (L : Int), offset := some (O : Int) } false
      = Except.ok
          ⟨((((td.rows.drop O).take L).length : ℕ) : Int),
            ((td.rows.drop O).take L).map (fun row => hydrate proto td.columns row)⟩ := by
  have hLt : truthy (some (L : Int)) = true := by
    simp only [truthy, bne_iff_ne, ne_eq, decide_eq_true_eq]
    omega
  have hnotneg : ¬((L : Int) < 0) := by omega
  have happ :
      applyLimitOffset td.rows { limit := some (L : Int), offset := some (O : Int) }
        = Except.ok ((td.rows.drop O).take L) := by
    by_cases hO : O = 0
    · have hOt : truthy (some ((O : ℕ) : Int)) = false := by
        simp [truthy, hO]
      simp only [applyLimitOffset, hLt, hOt, if_true, Bool.false_eq_true, if_false,
        Option.getD_some]
      rw [if_neg hnotneg, Int.toNat_natCast, hO, List.drop_zero]
    · have hOt : truthy (some ((O : ℕ) : Int)) = true := by
        simp only [truthy, bne_iff_ne, ne_eq, decide_eq_true_eq]
        omega
      simp only [applyLimitOffset, hLt, hOt, if_true, Option.getD_some]
      rw [if_neg hnotneg, Int.toNat_natCast, Int.toNat_natCast]
  have hsel :
      runSelect db proto.name { limit := some (L : Int), offset := some (O : Int) }
        = Except.ok (td.columns, (td.rows.drop O).take L) := by
    unfold runSelect
    rw [htab]
    simp [happ, Except.map]
  unfold find
  rw [hsel]
  simp

theorem ownNames_drop (t : SSQLTable) :
    (ownNames t).drop 1 = t.props.tail.map Prod.fst := by
  unfold ownNames
  rw [← List.map_drop, List.drop_one]

theorem jsIdVal_of_head (t : SSQLTable) (v : Value)
    (h : t.props.head? = some ("id", v)) : jsIdVal t = v := by
  unfold jsIdVal getVal
  cases hp : t.props with
  | nil => rw [hp] at h; simp at h
  | cons q rest =>
    rw [hp] at h
    simp only [List.head?_cons, Option.some.injEq] at h
    subst h
    simp [List.lookup_cons]

theorem fieldVals_eq (t : SSQLTable) (hnd : (ownNames t).Nodup) :
    fieldVals t = t.props.tail.map Prod.snd := by
  have core : ∀ (l : List (String × Value)) (q : String × Value),
      ((q :: l).map Prod.fst).Nodup →
      (l.map Prod.fst).map (fun p => (List.lookup p (q :: l)).getD Value.vNull)
        = l.map Prod.snd := by
    intro l q hq
    simp only [List.map_cons, List.nodup_cons] at hq
    have hm : (l.map Prod.fst).map (fun p => (List.lookup p (q :: l)).getD Value.vNull)
        = (l.map Prod.fst).map (fun p => (List.lookup p l).getD Value.vNull) := by
      apply List.map_congr_left
      intro c hc
      have hcq : c ≠ q.1 := fun hcc => hq.1 (hcc ▸ hc)
      have hb : (c == q.1) = false := by simp [hcq]
      cases q with
      | mk k v =>
        simp only [] at hb
        simp [List.lookup_cons, hb]
    rw [hm, lookup_pos l hq.2]
  unfold fieldVals getVal
  rw [ownNames_drop]
  unfold ownNames at hnd
  cases hp : t.props with
  | nil => simp
  | cons q rest =>
    rw [hp] at hnd
    simp only [List.tail_cons]
    exact core rest q hnd

/-- `UPDATE ... WHERE id = ?` against a table in which no row carries the
given id leaves the store unchanged and reports no error. -/
theorem runUpdate_noMatch (db : DBState) (n : String) (cols : List String)
    (vals : List Value) (wid : Value) (td : TableData)
    (htab : findTable db n = some td)
    (hno : ∀ r ∈ td.rows, ¬(rowVal td r "id" = some wid)) :
    runUpdate db n cols vals wid = Except.ok db := by
  have hmap :
      (td.rows.map
          (fun r =>
            if rowVal td r "id" = some wid then
              (td.columns.zip r).map (fun p => ((cols.zip vals).lookup p.1).getD p.2)
            else r))
        = td.rows := by
    have hid2 :
        (td.rows.map
            (fun r =>
              if rowVal td r "id" = some wid then
                (td.columns.zip r).map (fun p => ((cols.zip vals).lookup p.1).getD p.2)
              else r))
          = td.rows.map id :=
      List.map_congr_left (fun r hr => by rw [if_neg (hno r hr)]; rfl)
    rw [hid2, List.map_id]
  unfold runUpdate
  rw [htab]
  show Except.ok
      { db with
        tables := setTable db.tables n
          { td with
            rows := td.rows.map
              (fun r =>
                if rowVal td r "id" = some wid then
                  (td.columns.zip r).map (fun p => ((cols.zip vals).lookup p.1).getD p.2)
                else r) } }
    = Except.ok db
  rw [hmap]
  have hset : setTable db.tables n td = db.tables := by
    apply setTable_self
    unfold findTable at htab
    exact htab
  rw [hset]

/-! ## Claims -/

/-- C1 (counterexample): with `limit: 0` (and `offset: 0`) on a table of
one row, `findMany` returns 1 row, while the claimed formula
`max(0, min(L, N-O))` gives 0: a falsy limit makes `find` omit the LIMIT
clause entirely instead of limiting to zero rows. -/
theorem C1_limit_zero_counterexample :
    resultLen (findMany logDB sampleLog { limit := some 0, offset := some 0 }) = 1
      ∧ max 0 (min (0 : Int) ((1 : Int) - (0 : Int))) = 0
      ∧ (1 : Int) ≠ 0 := by
  refine ⟨by decide, by decide, by decide⟩

/-- C1 (amended): for every truthy limit `L ≥ 1` and offset `O`,
`findMany` with no filter and no explicit order returns the rows sliced
from the store's natural row order, and the number of returned rows is
`max(0, min(L, N-O))`; for `L = 0` the LIMIT clause is omitted (JavaScript
falsiness) and all rows from the offset onward are returned instead. -/
theorem C1_pagination_amended (db : DBState) (proto : SSQLTable) (td : TableData)
    (L O : ℕ) (hL : 1 ≤ L) (htab : findTable db proto.name = some td) :
    findMany db proto { limit := some (L : Int), offset := some (O : Int) }
        = Except.ok
            (((td.rows.drop O).take L).map (fun row => hydrate proto td.columns row))
      ∧ resultLen (findMany db proto { limit := some (L : Int), offset := some (O : Int) })
          = max 0 (min (L : Int) ((td.rows.length : Int) - (O : Int))) := by
  have hfind := find_noFilter db proto td L O hL htab
  constructor
  · unfold findMany
    rw [hfind]
    rfl
  · unfold findMany
    rw [hfind]
    show (((((td.rows.drop O).take L).map (fun row => hydrate proto td.columns row)).length : ℕ)
        : Int) = _
    rw [List.length_map, List.length_take, List.length_drop]
    omega

/-- C1 (witness): the amended pagination theorem applied to the one-row
`log` store with limit 1, offset 0. -/
theorem C1_pagination_witness :
    (1 : ℕ) ≤ 1
      ∧ resultLen
            (findMany logDB sampleLog
              { limit := some ((1 : ℕ) : Int), offset := some ((0 : ℕ) : Int) })
          = max 0 (min ((1 : ℕ) : Int) ((([[Value.vInt 1, Value.vInt 1]]
              : List (List Value)).length : Int) - ((0 : ℕ) : Int))) :=
  ⟨le_refl 1,
    (C1_pagination_amended logDB sampleLog ⟨["id", "status"], [[Value.vInt 1, Value.vInt 1]]⟩
      1 0 (le_refl 1) (by decide)).2⟩

/-- C7: schema synchronization is idempotent: a second `syncEntity` run on
an unchanged model leaves the store unchanged and issues no ALTER TABLE
statement, and after the first run the introspected column list contains
every descriptor field. -/
theorem C7_sync_idempotent (d : SSQLDefaults) (db : DBState) (t : SSQLTable) :
    syncEntity d ((syncEntity d db t).1) t = ((syncEntity d db t).1, [])
      ∧ ∀ x ∈ ownNames t,
          x ∈ runPragmaTableInfo ((syncEntity d db t).1) (toLowerStr t.name) := by
  obtain ⟨td, hfind, hsub⟩ := syncEntity_spec d db t
  set db1 := (syncEntity d db t).1 with hdb1
  have hct : runCreateTable db1 (toLowerStr t.name) (ownNames t) = db1 := by
    unfold runCreateTable
    rw [hfind]
  have hdata : runPragmaTableInfo db1 (toLowerStr t.name) = td.columns := by
    unfold runPragmaTableInfo
    rw [hfind]
  have hm : (ownNames t).filter (fun item => !(td.columns.contains item)) = [] := by
    rw [List.filter_eq_nil_iff]
    intro x hx
    have hmem := hsub x hx
    simp [hmem]
  constructor
  · simp only [syncEntity, hdata, hm, List.length_nil, gt_iff_lt, Nat.lt_irrefl, if_false,
      hct]
  · intro x hx
    unfold runPragmaTableInfo
    rw [hfind]
    exact hsub x hx

/-- C2 (counterexample): for the model named "User", the SELECT and
DELETE statements embed the raw constructor name "User", not the
lower-cased "user" the claim requires of every statement. -/
theorem C2_raw_name_counterexample :
    selectStatement sampleUser {} false = "SELECT * FROM \"User\""
      ∧ deleteStatement sampleUser = "DELETE FROM \"User\" WHERE id = ?"
      ∧ toLowerStr sampleUser.name = "user"
      ∧ selectStatement sampleUser {} false ≠ "SELECT * FROM \"user\""
      ∧ deleteStatement sampleUser ≠ "DELETE FROM \"user\" WHERE id = ?" := by
  refine ⟨rfl, rfl, rfl, by decide, by decide⟩

/-- C2 (amended): the schema statements (CREATE TABLE, PRAGMA, ALTER
TABLE) and the write statements (INSERT, UPDATE) name the table by the
lower-cased model type name, while the SELECT of `find` and the DELETE
name it by the type name as written, without lower-casing — so for a
model whose name is not already lower-case those two statements differ
from the lower-cased form. -/
theorem C2_table_naming_amended (d : SSQLDefaults) (t : SSQLTable) (c : String)
    (q : SSQLQuery) (co : Bool) :
    (∃ r, createTableStatement d t
        = "CREATE TABLE IF NOT EXISTS \"" ++ (toLowerStr t.name) ++ "\" (" ++ r)
      ∧ pragmaStatement t = "PRAGMA table_info(" ++ (toLowerStr t.name) ++ ");"
      ∧ alterStatement d t c
          = "ALTER TABLE \"" ++ (toLowerStr t.name) ++ "\" ADD COLUMN " ++ c ++ " "
            ++ optStr (columnInfo d t c)
      ∧ (∃ r, insertStatement t = "INSERT INTO \"" ++ (toLowerStr t.name) ++ "\" (" ++ r)
      ∧ (∃ r, updateStatement t = "UPDATE \"" ++ (toLowerStr t.name) ++ "\" SET " ++ r)
      ∧ (∃ r, selectStatement t q co
          = "SELECT " ++ (if co then "COUNT(*) AS total" else "*") ++ " FROM \"" ++ t.name
            ++ "\"" ++ r)
      ∧ deleteStatement t = "DELETE FROM \"" ++ t.name ++ "\" WHERE id = ?"
      ∧ (toLowerStr t.name ≠ t.name →
          deleteStatement t ≠ "DELETE FROM \"" ++ (toLowerStr t.name) ++ "\" WHERE id = ?") := by
  refine ⟨createTableStatement_head d t, rfl, rfl, ?_, ?_, ?_, rfl, ?_⟩
  · refine ⟨joinComma ((ownNames t).drop 1)
      ++ (") VALUES (" ++ (joinComma (List.replicate ((ownNames t).drop 1).length "?")
        ++ ")")), ?_⟩
    simp only [insertStatement, String.append_assoc]
  · refine ⟨joinComma (((ownNames t).drop 1).map (fun p => p ++ " = ?"))
      ++ " WHERE id = ?", ?_⟩
    rw [updateStatement_eq]
    simp only [String.append_assoc]
  · refine ⟨(match q.whereC with
        | some w => " WHERE " ++ w.1
        | none => "")
      ++ ((match q.order with
          | some o => " ORDER BY " ++ o.1 ++ (if o.2.getD false then " DESC " else " ASC ")
          | none => "")
        ++ ((if truthy q.limit then " LIMIT " ++ toString (q.limit.getD 0) else "")
          ++ (if truthy q.offset then " OFFSET " ++ toString (q.offset.getD 0) else ""))),
      ?_⟩
    simp only [selectStatement, String.append_assoc]
  · intro hne heq
    have heq2 : "DELETE FROM \"" ++ t.name ++ "\" WHERE id = ?"
        = "DELETE FROM \"" ++ (toLowerStr t.name) ++ "\" WHERE id = ?" := heq
    exact hne (append_inj_mid "DELETE FROM \"" "\" WHERE id = ?" t.name
      (toLowerStr t.name) heq2).symm

/-- C2 (witness): the amended naming theorem at the "User" model: the
PRAGMA addresses the lower-cased table, the DELETE addresses the
raw-cased one. -/
theorem C2_table_naming_witness :
    pragmaStatement sampleUser = "PRAGMA table_info(user);"
      ∧ deleteStatement sampleUser = "DELETE FROM \"User\" WHERE id = ?"
      ∧ deleteStatement sampleUser ≠ "DELETE FROM \"user\" WHERE id = ?" := by
  have h := C2_table_naming_amended sampleDefaults sampleUser "age" {} false
  exact ⟨h.2.1, h.2.2.2.2.2.2.1, h.2.2.2.2.2.2.2 (by decide)⟩

/-- C3: for an unsaved instance (`id == -1`, the first own property),
`save` takes the insert branch: the INSERT statement lists every field
except `id` in declaration order with one positional placeholder per
field, the bound values are the field values in the same order, and the
instance's `id` is set to the store's `lastInsertRowId` for that
insert. -/
theorem C3_insert_semantics (db : DBState) (t : SSQLTable) (td : TableData)
    (hid : t.props.head? = some ("id", Value.vInt (-1)))
    (hnd : (ownNames t).Nodup)
    (htab : findTable db (toLowerStr t.name) = some td) :
    insertStatement t
        = "INSERT INTO \"" ++ (toLowerStr t.name) ++ "\" ("
            ++ joinComma (t.props.tail.map Prod.fst) ++ ") VALUES ("
            ++ joinComma (List.replicate t.props.tail.length "?") ++ ")"
      ∧ fieldVals t = t.props.tail.map Prod.snd
      ∧ ∃ db2, save db t = Except.ok (db2, setProp t "id" (Value.vInt db2.lastInsertRowId))
          ∧ db2.lastInsertRowId = freshId td := by
  refine ⟨?_, fieldVals_eq t hnd, ?_⟩
  · simp only [insertStatement, ownNames_drop]
    rw [List.length_map]
  · have hjs : jsIdVal t = Value.vInt (-1) := jsIdVal_of_head t _ hid
    have hsave : save db t = insertRecord db t := by
      unfold save
      rw [if_pos hjs]
    rw [hsave]
    unfold insertRecord runInsert
    rw [htab]
    exact ⟨_, rfl, rfl⟩

/-- C3 (witness): saving a fresh "User" instance into an empty `user`
table assigns it the generated row identifier. -/
theorem C3_insert_witness :
    ∃ db2, save userFreshDB sampleUser
        = Except.ok (db2, setProp sampleUser "id" (Value.vInt db2.lastInsertRowId))
      ∧ db2.lastInsertRowId = freshId ⟨["id", "userName", "active", "age"], []⟩ :=
  (C3_insert_semantics userFreshDB sampleUser ⟨["id", "userName", "active", "age"], []⟩
    rfl (by decide) rfl).2.2

/-- C4: when the SELECT of `find` fails at result introspection (the
queried table does not exist in the store), the row-returning operations
degrade to an empty result — count 0, no objects — instead of
propagating the error, for every query shape. -/
theorem C4_find_swallows_introspection_failure (db : DBState) (proto : SSQLTable)
    (q : SSQLQuery) (i : Int) (htab : findTable db proto.name = none) :
    find db proto q false = Except.ok ⟨0, []⟩
      ∧ findMany db proto q = Except.ok []
      ∧ findOne db proto i = Except.ok none := by
  have hsel : ∀ q2 : SSQLQuery, runSelect db proto.name q2
      = Except.error "no such table" := by
    intro q2
    unfold runSelect
    rw [htab]
  have hfind : ∀ q2 : SSQLQuery, find db proto q2 false = Except.ok ⟨0, []⟩ := by
    intro q2
    unfold find
    rw [hsel q2]
    rfl
  refine ⟨hfind q, ?_, ?_⟩
  · unfold findMany
    rw [hfind q]
    rfl
  · unfold findOne
    rw [hfind _]
    rfl

/-- C4 (witness): `findMany` and `findOne` against a store with no tables
return the empty result. -/
theorem C4_find_swallows_witness :
    findMany emptyDB sampleUser {} = Except.ok []
      ∧ findOne emptyDB sampleUser 1 = Except.ok none := by
  have h := C4_find_swallows_introspection_failure emptyDB sampleUser {} 1 rfl
  exact ⟨h.2.1, h.2.2⟩

/-- C9: the degrade-to-empty swallow guards only the row-returning branch
of `find`; in count-only mode the result is read with no catch, so the
same missing-table failure propagates out of `count` and `countBy` as an
error instead of returning 0. -/
theorem C9_count_propagates_error (db : DBState) (proto : SSQLTable) (q : SSQLQuery)
    (htab : findTable db proto.name = none) :
    count db proto = Except.error "no such table"
      ∧ countBy db proto q = Except.error "no such table" := by
  have hsc : ∀ q2 : SSQLQuery, runSelectCount db proto.name q2
      = Except.error "no such table" := by
    intro q2
    unfold runSelectCount
    rw [htab]
  have hf : ∀ q2 : SSQLQuery, find db proto q2 true
      = Except.error "no such table" := by
    intro q2
    unfold find
    rw [hsc q2]
    rfl
  constructor
  · unfold count
    rw [hf _]
    rfl
  · unfold countBy
    rw [hf _]
    rfl

/-- C9 (witness): `count` and `countBy` against a store with no tables
error out rather than returning 0. -/
theorem C9_count_propagates_witness :
    count emptyDB sampleUser = Except.error "no such table"
      ∧ countBy emptyDB sampleUser {} = Except.error "no such table" :=
  C9_count_propagates_error emptyDB sampleUser {} rfl

/-- C5: for an instance whose `id` is not `-1`, `save` takes the update
branch: the UPDATE statement sets every non-`id` field to a placeholder
in declaration order with a trailing `WHERE id = ?`, the bound values are
the field values followed by the `id`, and when no row carries that `id`
the operation completes without error leaving the store (and the
instance) unchanged. -/
theorem C5_update_semantics (db : DBState) (t : SSQLTable) (td : TableData) (i : Int)
    (hid : t.props.head? = some ("id", Value.vInt i))
    (hne : i ≠ -1)
    (hnd : (ownNames t).Nodup)
    (htab : findTable db (toLowerStr t.name) = some td)
    (hno : ∀ r ∈ td.rows, ¬(rowVal td r "id" = some (Value.vInt i))) :
    updateStatement t
        = "UPDATE \"" ++ (toLowerStr t.name) ++ "\" SET "
            ++ joinComma ((t.props.tail.map Prod.fst).map (fun p => p ++ " = ?"))
            ++ " WHERE id = ?"
      ∧ updateData t = t.props.tail.map Prod.snd ++ [Value.vInt i]
      ∧ save db t = Except.ok (db, t) := by
  have hjs : jsIdVal t = Value.vInt i := jsIdVal_of_head t _ hid
  refine ⟨?_, ?_, ?_⟩
  · rw [updateStatement_eq, ownNames_drop]
  · unfold updateData
    rw [fieldVals_eq t hnd, hjs]
  · have hcond : ¬(jsIdVal t = Value.vInt (-1)) := by
      rw [hjs]
      intro hc
      exact hne (by injection hc)
    have hsave : save db t = updateRecord db t := by
      unfold save
      rw [if_neg hcond]
    rw [hsave]
    unfold updateRecord
    rw [hjs, runUpdate_noMatch db (toLowerStr t.name) _ _ (Value.vInt i) td htab hno]

/-- C5 (witness): saving a "User" instance with `id = 99` against a
two-row table that has no row 99 is an errorless no-op. -/
theorem C5_update_witness :
    save userDB (setProp sampleUser "id" (Value.vInt 99))
      = Except.ok (userDB, setProp sampleUser "id" (Value.vInt 99)) :=
  (C5_update_semantics userDB (setProp sampleUser "id" (Value.vInt 99))
    ⟨["id", "userName", "active", "age"],
     [[Value.vInt 1, Value.vStr "a", Value.vBool true, Value.vInt 10],
      [Value.vInt 2, Value.vStr "b", Value.vBool false, Value.vInt 20]]⟩ 99
    (by decide) (by decide) (by decide) (by decide) (by decide)).2.2

/-- C6: the `id` field maps by name to the integer primary-key
auto-increment not-null column; any other field maps according to the
runtime type of its value — boolean to a NOT NULL boolean column with the
configured default, string to a nullable varchar with the configured
default, number to a NOT NULL integer with the configured default — and
for non-`id` fields the result depends only on that runtime type. -/
theorem C6_column_type_inference (d : SSQLDefaults) (t t2 : SSQLTable) (c : String)
    (b : Bool) (s : String) (n : Int) :
    columnInfo d t "id" = some "integer PRIMARY KEY AUTOINCREMENT NOT NULL"
      ∧ (c ≠ "id" → getVal t c = some (Value.vBool b) →
          columnInfo d t c = some ("boolean NOT NULL DEFAULT " ++ boolStr d.bool))
      ∧ (c ≠ "id" → getVal t c = some (Value.vStr s) →
          columnInfo d t c = some ("varchar DEFAULT \"" ++ d.str ++ "\""))
      ∧ (c ≠ "id" → getVal t c = some (Value.vInt n) →
          columnInfo d t c = some ("integer NOT NULL DEFAULT " ++ toString d.int))
      ∧ (c ≠ "id" → jsTypeOf (getVal t c) = jsTypeOf (getVal t2 c) →
          columnInfo d t c = columnInfo d t2 c) := by
  refine ⟨by simp [columnInfo], ?_, ?_, ?_, ?_⟩
  · intro hc hg
    simp only [columnInfo]
    rw [if_neg hc, hg]
  · intro hc hg
    simp only [columnInfo]
    rw [if_neg hc, hg]
  · intro hc hg
    simp only [columnInfo]
    rw [if_neg hc, hg]
  · intro hc hty
    simp only [columnInfo]
    rw [if_neg hc, if_neg hc]
    cases hv : getVal t c with
    | none =>
      rw [hv] at hty
      cases hv2 : getVal t2 c with
      | none => rfl
      | some v2 =>
        rw [hv2] at hty
        cases v2 <;> simp [jsTypeOf] at hty
    | some v =>
      rw [hv] at hty
      cases hv2 : getVal t2 c with
      | none =>
        rw [hv2] at hty
        cases v <;> simp [jsTypeOf] at hty
      | some v2 =>
        rw [hv2] at hty
        cases v <;> cases v2 <;> first | rfl | simp [jsTypeOf] at hty

/-- C6 (witness): the four column definitions inferred for the "User"
model under the built-in defaults. -/
theorem C6_column_type_witness :
    columnInfo sampleDefaults sampleUser "id"
        = some "integer PRIMARY KEY AUTOINCREMENT NOT NULL"
      ∧ columnInfo sampleDefaults sampleUser "active"
          = some "boolean NOT NULL DEFAULT false"
      ∧ columnInfo sampleDefaults sampleUser "userName" = some "varchar DEFAULT \"\""
      ∧ columnInfo sampleDefaults sampleUser "age"
          = some "integer NOT NULL DEFAULT -1" := by
  refine ⟨(C6_column_type_inference sampleDefaults sampleUser sampleUser "active" false ""
      0).1, ?_, ?_, ?_⟩
  · exact (C6_column_type_inference sampleDefaults sampleUser sampleUser "active" false ""
      0).2.1 (by decide) (by decide)
  · exact (C6_column_type_inference sampleDefaults sampleUser sampleUser "userName" false ""
      0).2.2.1 (by decide) (by decide)
  · exact (C6_column_type_inference sampleDefaults sampleUser sampleUser "age" false ""
      0).2.2.2.1 (by decide) (by decide)

/-- C8: `delete` never writes the in-memory instance — a successful
delete returns it unchanged, `id` included — and for an instance whose
`id` is not `-1`, `save` takes the update branch, which also returns the
instance unchanged; only the insert branch mutates the instance. -/
theorem C8_no_instance_mutation (db : DBState) (t : SSQLTable)
    (hne : jsIdVal t ≠ Value.vInt (-1)) :
    (∀ db2 t2, delete db t = Except.ok (db2, t2) → t2 = t)
      ∧ save db t = updateRecord db t
      ∧ (∀ db2 t2, updateRecord db t = Except.ok (db2, t2) → t2 = t) := by
  refine ⟨?_, ?_, ?_⟩
  · intro db2 t2 h
    unfold delete at h
    cases hr : runDelete db t.name (jsIdVal t) with
    | error e =>
      rw [hr] at h
      simp at h
    | ok db3 =>
      rw [hr] at h
      simp only [Except.ok.injEq, Prod.mk.injEq] at h
      exact h.2.symm
  · unfold save
    rw [if_neg hne]
  · intro db2 t2 h
    unfold updateRecord at h
    cases hr : runUpdate db (toLowerStr t.name) ((ownNames t).drop 1) (fieldVals t)
        (jsIdVal t) with
    | error e =>
      rw [hr] at h
      simp at h
    | ok db3 =>
      rw [hr] at h
      simp only [Except.ok.injEq, Prod.mk.injEq] at h
      exact h.2.symm

/-- C8 (witness): saving a "User" instance with `id = 99` goes through
the update branch. -/
theorem C8_no_instance_mutation_witness :
    save userDB (setProp sampleUser "id" (Value.vInt 99))
      = updateRecord userDB (setProp sampleUser "id" (Value.vInt 99)) :=
  (C8_no_instance_mutation userDB (setProp sampleUser "id" (Value.vInt 99))
    (by decide)).2.1

/-- C10: the hydration loop of `find` defines a property on the freshly
constructed instance for every result-set column name — the theorem
quantifies over arbitrary column-name lists, with no requirement that a
name be a field of the model descriptor, so stale columns are assigned
too, with no validation. -/
theorem C10_hydration_defines_all_columns (proto : SSQLTable) (names : List String)
    (row : List Value) (i : ℕ) (hnd : names.Nodup) (hi : i < names.length)
    (hr : i < row.length) :
    getVal (hydrate proto names row) (names.get ⟨i, hi⟩) = some (row.get ⟨i, hr⟩) :=
  getVal_hydrate_nodup names row proto i hnd hi hr

/-- C10 (witness): hydrating a "Log" instance from a result set carrying
a stale column "stale" (not a field of the descriptor) assigns that
column's value onto the instance. -/
theorem C10_hydration_witness :
    getVal (hydrate sampleLog ["id", "status", "stale"]
        [Value.vInt 1, Value.vInt 2, Value.vStr "x"]) "stale" = some (Value.vStr "x") :=
  C10_hydration_defines_all_columns sampleLog ["id", "status", "stale"]
    [Value.vInt 1, Value.vInt 2, Value.vStr "x"] 2 (by decide) (by decide) (by decide)

end SmallORM
